import Mathlib

/-!
Chatbot service (`chatbot.js`): request pipeline and guide loader

A shallow embedding of the Express application in `src/chatbot.js`:

* `authenticateJWT`, the middleware guarding `POST /chat`;
* the `POST /chat` handler (validation, query encryption, embedding,
  retrieval, prompt construction, generation, optional WhatsApp relay);
* `getEmbedding` and `loadCustomerGuide`, together with the start-up call
  `loadCustomerGuide().catch(console.error)`.

The external collaborators (token verification, the cipher, the embedding
endpoint, the `$vectorSearch` aggregation, the language-model endpoint and the
messaging client) are parameters of the model: each is an arbitrary function
returning either a value or a thrown error.  Every call the program makes to
one of them is recorded, in program order, in a trace of `Call`s.
-/

set_option autoImplicit false

namespace Chatbot

/-! ## JavaScript values and string helpers -/

/-- A JSON value as it reaches the handler in `req.body` or in a decoded token.
Numbers are the safe integers (magnitude below `2^53`), which a JavaScript
number holds exactly and prints in plain decimal; fractional and larger numbers
and arrays are not represented; `obj` is a plain object. -/
inductive JsVal where
  | undefined
  | null
  | bool (b : Bool)
  | num (n : Int) (safe : n.natAbs < 9007199254740992)
  | str (s : String)
  | obj
  deriving DecidableEq

/-- JavaScript truthiness, as tested by `!query` and `if (viaWhatsApp)`. -/
def JsVal.truthy : JsVal → Bool
  | .undefined => false
  | .null => false
  | .bool b => b
  | .num n _ => n != 0
  | .str s => s != ""
  | .obj => true

/-- String conversion performed by a template literal `${v}`. -/
def JsVal.toStr : JsVal → String
  | .undefined => "undefined"
  | .null => "null"
  | .bool true => "true"
  | .bool false => "false"
  | .num n _ => toString n
  | .str s => s
  | .obj => "[object Object]"

/-- Splitting a character sequence at every occurrence of `sep`
(`String.prototype.split` with a one-character separator). -/
def splitChars (sep : Char) : List Char → List (List Char)
  | [] => [[]]
  | c :: cs =>
    if c = sep then [] :: splitChars sep cs
    else
      match splitChars sep cs with
      | [] => [[c]]
      | w :: ws => (c :: w) :: ws

/-- The JavaScript call `s.split(sep)` for a one-character separator. -/
def jsSplit (s : String) (sep : Char) : List String :=
  (splitChars sep s.toList).map String.mk

/-- The JavaScript call `xs.join(sep)` on an array of strings. -/
def jsJoin (sep : String) : List String → String
  | [] => ""
  | [x] => x
  | x :: y :: rest => x ++ sep ++ jsJoin sep (y :: rest)

/-! ## Data model -/

/-- An embedding vector (`[Number]`).  The program never computes on the
components; it only passes vectors between collaborators. -/
abbrev Embedding := List Int

/-- A document of the `Guide` collection (`GuideSchema`). -/
structure GuideEntry where
  content : String
  embedding : Embedding
  deriving DecidableEq, Repr

/-- The `Guide` collection, in natural (insertion) order. -/
abbrev Store := List GuideEntry

/-- The detail carried by a thrown error. -/
abbrev Err := String

/-- The decoded token payload stored in `req.user`. -/
structure User where
  phoneNumber : JsVal
  deriving DecidableEq

/-- The fields of `req.body` read by the handler. -/
structure ReqBody where
  query : JsVal
  viaWhatsApp : JsVal
  deriving DecidableEq

/-- The body of a response: the JSON `{ error: msg }` or `{ response: text }`
sent by the program, or the error page the framework sends by itself. -/
inductive Body where
  | error (msg : String)
  | response (text : String)
  | errorPage
  deriving DecidableEq, Repr

/-- The outcome of the global body parser `express.json()`, registered with
`app.use` before the route: the body it stores in `req.body`, or its refusal of
a body that is not valid JSON. -/
inductive BodyParse where
  | parsed (body : ReqBody)
  | malformed
  deriving DecidableEq

/-- An HTTP response: status code and JSON body. -/
structure Response where
  status : Nat
  body : Body
  deriving DecidableEq, Repr

/-- One observable action of the program on a collaborator. -/
inductive Call where
  | verify (token : String)
  | encrypt (data : JsVal)
  | embed (text : JsVal)
  | search (queryVector : Embedding) (limit : Nat)
  | generate (prompt : String)
  | relay (body : String) (sender : String) (dest : String)
  | upsert (content : String) (embedding : Embedding)
  | log (label : String) (detail : Err)
  deriving DecidableEq

/-- The pipeline stage a call belongs to: encryption 1, embedding 2,
retrieval 3, generation 4, relay 5; other actions 0. -/
def Call.stage : Call → Nat
  | .encrypt _ => 1
  | .embed _ => 2
  | .search _ _ => 3
  | .generate _ => 4
  | .relay _ _ _ => 5
  | _ => 0

/-- Whether a call goes to the embedding provider, the guide store, the
generation provider or the messaging relay. -/
def Call.isExternal : Call → Bool
  | .embed _ => true
  | .search _ _ => true
  | .generate _ => true
  | .relay _ _ _ => true
  | .upsert _ _ => true
  | _ => false

/-- Whether a call is a call to the messaging relay. -/
def Call.isRelay : Call → Bool
  | .relay _ _ _ => true
  | _ => false

/-- Whether a call is a call to the generation provider. -/
def Call.isGenerate : Call → Bool
  | .generate _ => true
  | _ => false

/-- The collaborators of the request pipeline. -/
structure Env where
  /-- Token verification, `jwt.verify(token, process.env.JWT_SECRET)`. -/
  jwtVerify : String → Except Err User
  /-- The cipher behind `encryptData(data)`. -/
  encryptData : JsVal → Except Err String
  /-- The embedding endpoint: `response.data.embedding` for `{ inputs: text }`. -/
  embed : JsVal → Except Err Embedding
  /-- The aggregation `Guide.aggregate([{ $vectorSearch: ... }])`. -/
  vectorSearch : Embedding → Nat → Except Err (List GuideEntry)
  /-- The generation endpoint: `llmResponse.data.response` for `{ prompt }`. -/
  generate : String → Except Err String
  /-- The call `twilioClient.messages.create({ body, from, to })`. -/
  relay : String → String → String → Except Err Unit

/-! ## The program -/

/-- The token read by `req.headers.authorization?.split(' ')[1]`. -/
def bearerToken (authorization : Option String) : Option String :=
  match authorization with
  | none => none
  | some h => (jsSplit h ' ')[1]?

/-- The middleware `authenticateJWT`: either the response it sends, or the
identity it stores in `req.user` before calling `next()`. -/
def authenticateJWT (env : Env) (authorization : Option String) :
    Except Response User × List Call :=
  match bearerToken authorization with
  | none => (.error ⟨401, .error "Unauthorized"⟩, [])
  | some token =>
    if token = "" then (.error ⟨401, .error "Unauthorized"⟩, [])
    else
      match env.jwtVerify token with
      | .ok decoded => (.ok decoded, [.verify token])
      | .error _ => (.error ⟨401, .error "Invalid token"⟩, [.verify token])

/-- The function `getEmbedding`: one call to the embedding endpoint; a failure
is logged and rethrown. -/
def getEmbedding (embed : JsVal → Except Err Embedding) (text : JsVal) :
    Except Err Embedding × List Call :=
  match embed text with
  | .ok v => (.ok v, [.embed text])
  | .error e => (.error e, [.embed text, .log "Error generating embedding:" e])

/-- The context string: `relevantDocs.map(doc => doc.content).join('\n')`. -/
def buildContext (relevantDocs : List GuideEntry) : String :=
  jsJoin "\n" (relevantDocs.map (fun doc => doc.content))

/-- The prompt template sent to the generation endpoint. -/
def buildPrompt (context : String) (query : JsVal) : String :=
  "Context: " ++ context ++ "\n\nUser Query: " ++ query.toStr ++
    "\n\nProvide a concise and accurate response in the same language as the query."

/-- The response sent by the `catch` block of the handler. -/
def internalError : Response := ⟨500, .error "Internal server error"⟩

/-- The `catch` block of the handler: log, then answer 500. -/
def caught (trace : List Call) (e : Err) : Response × List Call :=
  (internalError, trace ++ [.log "Chatbot error:" e])

/-- The body of the `POST /chat` handler, run with `req.user = user`.  The
value of `encryptData(query)` is bound to `encryptedQuery` and never read, so
only the success or failure of that call matters. -/
def chatHandler (env : Env) (user : User) (body : ReqBody) : Response × List Call :=
  if !body.query.truthy then (⟨400, .error "Query is required"⟩, [])
  else
    match env.encryptData body.query with
    | .error e => caught [.encrypt body.query] e
    | .ok _ =>
      match getEmbedding env.embed body.query with
      | (.error e, t) => caught (.encrypt body.query :: t) e
      | (.ok queryEmbedding, t) =>
        match env.vectorSearch queryEmbedding 3 with
        | .error e => caught (.encrypt body.query :: t ++ [.search queryEmbedding 3]) e
        | .ok relevantDocs =>
          let prompt := buildPrompt (buildContext relevantDocs) body.query
          let t4 := .encrypt body.query :: t ++ [.search queryEmbedding 3, .generate prompt]
          match env.generate prompt with
          | .error e => caught t4 e
          | .ok responseText =>
            if body.viaWhatsApp.truthy then
              let dest := "whatsapp:" ++ user.phoneNumber.toStr
              let t5 := t4 ++ [.relay responseText "whatsapp:+1234567890" dest]
              match env.relay responseText "whatsapp:+1234567890" dest with
              | .error e => caught t5 e
              | .ok _ => (⟨200, .response responseText⟩, t5)
            else (⟨200, .response responseText⟩, t4)

/-- The route `app.post('/chat', authenticateJWT, handler)`, run on a request
whose body the global parser has accepted. -/
def postChat (env : Env) (authorization : Option String) (body : ReqBody) :
    Response × List Call :=
  match authenticateJWT env authorization with
  | (.error res, t) => (res, t)
  | (.ok user, t) =>
    let r := chatHandler env user body
    (r.1, t ++ r.2)

/-- The application on a `POST /chat` request: the global middleware
`express.json()` first, then the route.  A body the parser refuses goes to the
default error handler of the framework, which answers with status 400 and its
own error page; the route is not reached. -/
def app (env : Env) (authorization : Option String) (parse : BodyParse) :
    Response × List Call :=
  match parse with
  | .malformed => (⟨400, .errorPage⟩, [])
  | .parsed body => postChat env authorization body

/-- The static passage list `guideContent` of `loadCustomerGuide`. -/
def guideContent : List String :=
  [ "To add a product to your wishlist, click the heart icon next to the product.",
    "To visit a store, select the store from the list and click \"Visit\".",
    "To navigate, use the search bar at the top or browse categories.",
    "لإضافة منتج إلى قائمة الرغبات، اضغط على أيقونة القلب بجوار المنتج.",
    "لزيارة متجر، اختر المتجر من القائمة واضغط على \"زيارة\".",
    "للتصفح، استخدم شريط البحث في الأعلى أو تصفح الفئات." ]

/-- Modelled from the spec: the store operation behind
`Guide.findOneAndUpdate({ content }, { content, embedding }, { upsert: true })`,
which lives in the database and not in the repository.  It "inserts a new entry
or replaces the embedding of an existing entry with the same `content`": the
first entry with that content is rewritten, and when there is none a new entry
is appended. -/
def findOneAndUpdate (store : Store) (content : String) (embedding : Embedding) : Store :=
  match store with
  | [] => [⟨content, embedding⟩]
  | d :: ds =>
    if d.content = content then ⟨content, embedding⟩ :: ds
    else d :: findOneAndUpdate ds content embedding

/-- The outcome of a loader run: whether it threw, the store it left, and the
calls it made. -/
structure LoadResult where
  outcome : Except Err Unit
  store : Store
  trace : List Call

/-- The loop `for (const content of guideContent) { ... }` of
`loadCustomerGuide`, over the passages still to be processed. -/
def loadLoop (embed : JsVal → Except Err Embedding) : List String → Store → LoadResult
  | [], store => ⟨.ok (), store, []⟩
  | content :: rest, store =>
    match getEmbedding embed (.str content) with
    | (.error e, t) => ⟨.error e, store, t⟩
    | (.ok embedding, t) =>
      let r := loadLoop embed rest (findOneAndUpdate store content embedding)
      ⟨r.outcome, r.store, t ++ .upsert content embedding :: r.trace⟩

/-- The function `loadCustomerGuide`. -/
def loadCustomerGuide (embed : JsVal → Except Err Embedding) (store : Store) : LoadResult :=
  loadLoop embed guideContent store

/-- The start-up statement `loadCustomerGuide().catch(console.error)`: the
store it leaves and the calls it makes, the rejection being logged. -/
def initGuide (embed : JsVal → Except Err Embedding) (store : Store) : Store × List Call :=
  let r := loadCustomerGuide embed store
  match r.outcome with
  | .ok _ => (r.store, r.trace)
  | .error e => (r.store, r.trace ++ [.log "" e])

/-! ## Auxiliary notions used in the statements -/

/-- The request carries a credential that the middleware accepts: the header
has a non-empty second segment `token`, and verifying it yields `user`. -/
def Authenticated (env : Env) (authorization : Option String) (token : String)
    (user : User) : Prop :=
  bearerToken authorization = some token ∧ token ≠ "" ∧ env.jwtVerify token = .ok user

/-- Stage `k` is the first stage of the pipeline whose collaborator throws on
this request (1 encryption, 2 embedding, 3 retrieval, 4 generation). -/
def FailsAtStage (env : Env) (body : ReqBody) : Nat → Prop
  | 1 => ∃ e, env.encryptData body.query = .error e
  | 2 => (∃ c, env.encryptData body.query = .ok c) ∧ ∃ e, env.embed body.query = .error e
  | 3 => (∃ c, env.encryptData body.query = .ok c) ∧
      ∃ v e, env.embed body.query = .ok v ∧ env.vectorSearch v 3 = .error e
  | 4 => (∃ c, env.encryptData body.query = .ok c) ∧
      ∃ v docs e, env.embed body.query = .ok v ∧ env.vectorSearch v 3 = .ok docs ∧
        env.generate (buildPrompt (buildContext docs) body.query) = .error e
  | _ => False

/-- The vector the embedding endpoint returns for a passage (empty when the
call fails). -/
def embeddingOf (embed : JsVal → Except Err Embedding) (content : String) : Embedding :=
  match embed (.str content) with
  | .ok v => v
  | .error _ => []

/-- The store after upserting the given passages, in order, each with the
vector returned for it. -/
def upsertAll (embed : JsVal → Except Err Embedding) : List String → Store → Store
  | [], store => store
  | c :: cs, store => upsertAll embed cs (findOneAndUpdate store c (embeddingOf embed c))

/-- The calls made while loading the given passages successfully, in order. -/
def loadTrace (embed : JsVal → Except Err Embedding) : List String → List Call
  | [] => []
  | c :: cs => .embed (.str c) :: .upsert c (embeddingOf embed c) :: loadTrace embed cs

/-- The contents of the entries of a store, in order. -/
def contents (store : Store) : List String := store.map (fun d => d.content)

/-- The entries of a store whose content is `c`. -/
def entriesFor (store : Store) (c : String) : List GuideEntry :=
  store.filter (fun d => decide (d.content = c))

/-! ## Concrete collaborators used to exercise the model -/

/-- A sample environment: the token `good` verifies, every provider succeeds,
and the messaging relay fails. -/
def sampleEnv : Env where
  jwtVerify := fun t => if t = "good" then .ok ⟨.str "+201000000000"⟩ else .error "jwt malformed"
  encryptData := fun _ => .ok "9f2c"
  embed := fun _ => .ok [1, 0]
  vectorSearch := fun _ _ => .ok [⟨"A", [1, 0]⟩, ⟨"B", [0, 1]⟩]
  generate := fun _ => .ok "Click the heart icon."
  relay := fun _ _ _ => .error "twilio: 503"

/-- The sample environment with a messaging relay that succeeds. -/
def relayOkEnv : Env := { sampleEnv with relay := fun _ _ _ => .ok () }

/-- The sample environment with a generation endpoint that fails. -/
def generateDownEnv : Env := { sampleEnv with generate := fun _ => .error "grok: 502" }

/-- The sample environment with a retrieval that returns no document. -/
def emptyStoreEnv : Env := { relayOkEnv with vectorSearch := fun _ _ => .ok [] }

/-- A sample request: a non-empty query with the relay requested. -/
def sampleBody : ReqBody := ⟨.str "hi", .bool true⟩

/-- An embedding endpoint that answers every text with the same vector. -/
def constEmbed : JsVal → Except Err Embedding := fun _ => .ok [1, 0]

/-- An embedding endpoint that fails on the first passage of the guide and
succeeds on every other text. -/
def failFirstEmbed : JsVal → Except Err Embedding := fun t =>
  if t = .str "To add a product to your wishlist, click the heart icon next to the product."
  then .error "hf: 503" else .ok [1, 0]

/-! ## Authentication and validation -/

theorem authenticateJWT_trace (env : Env) (authorization : Option String) :
    ∀ c ∈ (authenticateJWT env authorization).2, c.isExternal = false := by
  unfold authenticateJWT
  split
  · simp
  · split
    · simp
    · split <;> simp [Call.isExternal]

theorem authenticateJWT_ok (env : Env) (authorization : Option String) (token : String)
    (user : User) (h : Authenticated env authorization token user) :
    authenticateJWT env authorization = (.ok user, [.verify token]) := by
  obtain ⟨h1, h2, h3⟩ := h
  simp [authenticateJWT, h1, h2, h3]

theorem postChat_authenticated (env : Env) (authorization : Option String) (token : String)
    (user : User) (body : ReqBody) (h : Authenticated env authorization token user) :
    postChat env authorization body =
      ((chatHandler env user body).1, .verify token :: (chatHandler env user body).2) := by
  simp [postChat, authenticateJWT_ok env authorization token user h]

theorem chatHandler_falsy_query (env : Env) (user : User) (body : ReqBody)
    (hq : body.query.truthy = false) :
    chatHandler env user body = (⟨400, .error "Query is required"⟩, []) := by
  simp [chatHandler, hq]

theorem sample_authenticated (env : Env) (h : env.jwtVerify = sampleEnv.jwtVerify) :
    Authenticated env (some "Bearer good") "good" ⟨.str "+201000000000"⟩ := by
  refine ⟨by decide, by decide, ?_⟩
  rw [h]
  rfl

/-- C1: an authenticated `POST /chat` request whose `query` is missing
(`undefined`) or the empty string is answered with status 400 and body
`{ error: "Query is required" }`; the handler makes no call at all, so the only
call of the whole request is the token verification, and nothing is sent to the
embedding provider, the guide store, the generation provider or the relay. -/
theorem chat_missing_or_empty_query_400 (env : Env) (authorization : Option String)
    (token : String) (user : User) (body : ReqBody)
    (hauth : Authenticated env authorization token user)
    (hq : body.query = .undefined ∨ body.query = .str "") :
    postChat env authorization body =
        (⟨400, .error "Query is required"⟩, [.verify token]) ∧
      ∀ c ∈ (postChat env authorization body).2, c.isExternal = false := by
  have hf : body.query.truthy = false := by
    rcases hq with h | h <;> simp [h, JsVal.truthy]
  have hpost : postChat env authorization body =
      (⟨400, .error "Query is required"⟩, [.verify token]) := by
    rw [postChat_authenticated env authorization token user body hauth,
      chatHandler_falsy_query env user body hf]
  refine ⟨hpost, ?_⟩
  rw [hpost]
  simp [Call.isExternal]

theorem chat_missing_or_empty_query_400_witness :
    postChat sampleEnv (some "Bearer good") ⟨.str "", .bool true⟩ =
        (⟨400, .error "Query is required"⟩, [.verify "good"]) ∧
      ∀ c ∈ (postChat sampleEnv (some "Bearer good") ⟨.str "", .bool true⟩).2,
        c.isExternal = false :=
  chat_missing_or_empty_query_400 sampleEnv (some "Bearer good") "good"
    ⟨.str "+201000000000"⟩ ⟨.str "", .bool true⟩ (sample_authenticated sampleEnv rfl)
    (Or.inr rfl)

theorem app_parsed (env : Env) (authorization : Option String) (body : ReqBody) :
    app env authorization (.parsed body) = postChat env authorization body := rfl

theorem postChat_no_token (env : Env) (authorization : Option String) (body : ReqBody)
    (h : bearerToken authorization = none ∨ bearerToken authorization = some "") :
    postChat env authorization body = (⟨401, .error "Unauthorized"⟩, []) := by
  rcases h with h | h <;> simp [postChat, authenticateJWT, h]

theorem postChat_invalid_token (env : Env) (authorization : Option String) (body : ReqBody)
    (token : String) (e : Err) (h1 : bearerToken authorization = some token)
    (h2 : token ≠ "") (h3 : env.jwtVerify token = .error e) :
    postChat env authorization body = (⟨401, .error "Invalid token"⟩, [.verify token]) := by
  simp [postChat, authenticateJWT, h1, h2, h3]

theorem postChat_bad_credential (env : Env) (authorization : Option String) (body : ReqBody)
    (hcred : bearerToken authorization = none ∨ bearerToken authorization = some "" ∨
      ∃ token e, bearerToken authorization = some token ∧ env.jwtVerify token = .error e) :
    (postChat env authorization body).1.status = 401 ∧
      ∀ c ∈ (postChat env authorization body).2, c.isExternal = false := by
  rcases hcred with h | h | ⟨token, e, h1, h3⟩
  · rw [postChat_no_token env authorization body (Or.inl h)]; simp
  · rw [postChat_no_token env authorization body (Or.inr h)]; simp
  · by_cases h2 : token = ""
    · rw [postChat_no_token env authorization body (Or.inr (h2 ▸ h1))]; simp
    · rw [postChat_invalid_token env authorization body token e h1 h2 h3]
      simp [Call.isExternal]

/-- C2 (as the code behaves): a request whose body the JSON body parser accepts
and whose credential is missing or invalid is answered with status 401 by the
middleware and the chat handler is not entered.  When the `Authorization`
header is absent or has no non-empty second space-separated segment, the body
is `{ error: "Unauthorized" }` and the verification is not attempted (empty
trace); when the verification of that segment throws, the body is
`{ error: "Invalid token" }`.  Whatever the parser does with the body, a
request with such a credential causes no call to the embedding provider, the
store, the generation provider or the relay; a body the parser refuses is
answered 400 by the framework before the credential is looked at. -/
theorem chat_bad_credential_401 (env : Env) (authorization : Option String) (body : ReqBody)
    (hcred : bearerToken authorization = none ∨ bearerToken authorization = some "" ∨
      ∃ token e, bearerToken authorization = some token ∧ env.jwtVerify token = .error e) :
    (app env authorization (.parsed body)).1.status = 401 ∧
      (∀ parse, ∀ c ∈ (app env authorization parse).2, c.isExternal = false) ∧
      (authorization = none → app env authorization (.parsed body) =
        (⟨401, .error "Unauthorized"⟩, [])) ∧
      (∀ h, authorization = some h →
        (jsSplit h ' ')[1]? = none ∨ (jsSplit h ' ')[1]? = some "" →
        app env authorization (.parsed body) = (⟨401, .error "Unauthorized"⟩, [])) ∧
      (∀ token e, bearerToken authorization = some token → token ≠ "" →
        env.jwtVerify token = .error e →
        app env authorization (.parsed body) =
          (⟨401, .error "Invalid token"⟩, [.verify token])) ∧
      app env authorization .malformed = (⟨400, .errorPage⟩, []) := by
  refine ⟨?_, ?_, ?_, ?_, ?_, rfl⟩
  · rw [app_parsed]
    exact (postChat_bad_credential env authorization body hcred).1
  · intro parse
    cases parse with
    | malformed => simp [app]
    | parsed b =>
      rw [app_parsed]
      exact (postChat_bad_credential env authorization b hcred).2
  · intro h
    rw [app_parsed]
    exact postChat_no_token env authorization body (Or.inl (by simp [h, bearerToken]))
  · intro h hh hs
    rw [app_parsed]
    apply postChat_no_token
    simpa [hh, bearerToken] using hs
  · intro token e h1 h2 h3
    rw [app_parsed]
    exact postChat_invalid_token env authorization body token e h1 h2 h3

theorem chat_bad_credential_401_witness :
    app sampleEnv (some "Bearer bad") (.parsed sampleBody) =
      (⟨401, .error "Invalid token"⟩, [.verify "bad"]) :=
  (chat_bad_credential_401 sampleEnv (some "Bearer bad") sampleBody
    (Or.inr (Or.inr ⟨"bad", "jwt malformed", by decide, rfl⟩))).2.2.2.2.1
    "bad" "jwt malformed" (by decide) (by decide) rfl

/-- C2 fails as stated: a request without an `Authorization` header whose body
is not valid JSON has a missing credential, yet it is answered with status 400
by the body parser, which runs before the middleware; the response is not 401.
No call is made. -/
theorem chat_bad_credential_counterexample :
    bearerToken none = none ∧
      app sampleEnv none .malformed = (⟨400, .errorPage⟩, []) ∧
      (app sampleEnv none .malformed).1.status ≠ 401 :=
  ⟨rfl, rfl, by decide⟩

/-! ## The request pipeline -/

/-- The calls of a request up to and including the generation call. -/
theorem chatHandler_generated (env : Env) (user : User) (body : ReqBody)
    (c : String) (v : Embedding) (docs : List GuideEntry) (r : String)
    (hq : body.query.truthy = true)
    (henc : env.encryptData body.query = .ok c)
    (hemb : env.embed body.query = .ok v)
    (hsearch : env.vectorSearch v 3 = .ok docs)
    (hgen : env.generate (buildPrompt (buildContext docs) body.query) = .ok r) :
    chatHandler env user body =
      if body.viaWhatsApp.truthy then
        match env.relay r "whatsapp:+1234567890" ("whatsapp:" ++ user.phoneNumber.toStr) with
        | .error e =>
          (internalError,
            [.encrypt body.query, .embed body.query, .search v 3,
              .generate (buildPrompt (buildContext docs) body.query),
              .relay r "whatsapp:+1234567890" ("whatsapp:" ++ user.phoneNumber.toStr),
              .log "Chatbot error:" e])
        | .ok _ =>
          (⟨200, .response r⟩,
            [.encrypt body.query, .embed body.query, .search v 3,
              .generate (buildPrompt (buildContext docs) body.query),
              .relay r "whatsapp:+1234567890" ("whatsapp:" ++ user.phoneNumber.toStr)])
      else
        (⟨200, .response r⟩,
          [.encrypt body.query, .embed body.query, .search v 3,
            .generate (buildPrompt (buildContext docs) body.query)]) := by
  simp only [chatHandler, getEmbedding, hq, henc, hemb, hsearch, hgen]
  by_cases hw : body.viaWhatsApp.truthy = true
  · simp only [hw]
    cases hr : env.relay r "whatsapp:+1234567890" ("whatsapp:" ++ user.phoneNumber.toStr) <;>
      simp [caught]
  · simp [hw]

/-- A failure at stage `k` of the pipeline: the response and the calls made. -/
theorem chatHandler_stage_failure (env : Env) (user : User) (body : ReqBody) (k : Nat)
    (hq : body.query.truthy = true) (hfail : FailsAtStage env body k) :
    (chatHandler env user body).1 = internalError ∧
      (∀ c ∈ (chatHandler env user body).2, c.stage ≤ k) ∧
      ∃ c ∈ (chatHandler env user body).2, c.stage = k := by
  match k, hfail with
  | 1, ⟨e, he⟩ =>
    simp [chatHandler, hq, he, caught, Call.stage]
  | 2, ⟨⟨c, hc⟩, e, he⟩ =>
    simp [chatHandler, getEmbedding, hq, hc, he, caught, Call.stage]
  | 3, ⟨⟨c, hc⟩, v, e, hv, he⟩ =>
    simp [chatHandler, getEmbedding, hq, hc, hv, he, caught, Call.stage]
  | 4, ⟨⟨c, hc⟩, v, docs, e, hv, hd, he⟩ =>
    simp [chatHandler, getEmbedding, hq, hc, hv, hd, he, caught, Call.stage]

theorem intercalate_go_eq (sep : String) (xs : List String) (acc x : String) :
    String.intercalate.go acc sep (x :: xs) = acc ++ sep ++ jsJoin sep (x :: xs) := by
  induction xs generalizing acc x with
  | nil => simp [String.intercalate.go, jsJoin]
  | cons y ys ih =>
    rw [String.intercalate.go, ih, jsJoin]
    simp [String.append_assoc]

theorem jsJoin_eq_intercalate (sep : String) (xs : List String) :
    jsJoin sep xs = String.intercalate sep xs := by
  match xs with
  | [] => rfl
  | [x] => simp [jsJoin, String.intercalate, String.intercalate.go]
  | x :: y :: rest =>
    rw [String.intercalate, intercalate_go_eq, jsJoin]

theorem sample_stage4 : FailsAtStage generateDownEnv sampleBody 4 :=
  ⟨⟨"9f2c", rfl⟩, [1, 0], [⟨"A", [1, 0]⟩, ⟨"B", [0, 1]⟩], "grok: 502", rfl, rfl, rfl⟩

/-- C4: on an authenticated request with a non-empty query, when query
encryption (stage 1), the embedding call (2), the store retrieval (3) or the
generation call (4) throws, the response is status 500 with body exactly
`{ error: "Internal server error" }`; every call made belongs to a stage no
later than the failing one; and any other such run, whatever stage failed and
whatever the error carried, receives the same response. -/
theorem chat_pipeline_failure_500 (env : Env) (authorization : Option String)
    (token : String) (user : User) (body : ReqBody) (k : Nat)
    (hauth : Authenticated env authorization token user)
    (hq : body.query.truthy = true) (hfail : FailsAtStage env body k) :
    (postChat env authorization body).1 = ⟨500, .error "Internal server error"⟩ ∧
      (∀ c ∈ (postChat env authorization body).2, c.stage ≤ k) ∧
      ∀ (env2 : Env) (authorization2 : Option String) (token2 : String) (user2 : User)
        (body2 : ReqBody) (k2 : Nat),
        Authenticated env2 authorization2 token2 user2 → body2.query.truthy = true →
        FailsAtStage env2 body2 k2 →
        (postChat env2 authorization2 body2).1 = (postChat env authorization body).1 := by
  have h := chatHandler_stage_failure env user body k hq hfail
  rw [postChat_authenticated env authorization token user body hauth]
  refine ⟨h.1, ?_, ?_⟩
  · intro c hc
    rcases List.mem_cons.1 hc with rfl | hc
    · simp [Call.stage]
    · exact h.2.1 c hc
  · intro env2 authorization2 token2 user2 body2 k2 hauth2 hq2 hfail2
    rw [postChat_authenticated env2 authorization2 token2 user2 body2 hauth2]
    exact (chatHandler_stage_failure env2 user2 body2 k2 hq2 hfail2).1.trans h.1.symm

theorem chat_pipeline_failure_500_witness :
    (postChat generateDownEnv (some "Bearer good") sampleBody).1 =
      ⟨500, .error "Internal server error"⟩ :=
  (chat_pipeline_failure_500 generateDownEnv (some "Bearer good") "good"
    ⟨.str "+201000000000"⟩ sampleBody 4 (sample_authenticated generateDownEnv rfl)
    (by decide) sample_stage4).1

/-- C3 (as the code behaves): on an authenticated request with
`viaWhatsApp: true` and a non-empty query, when encryption, embedding,
retrieval and generation succeed but the relay call throws, the handler answers
500 with body `{ error: "Internal server error" }`; the relay was called once,
after generation, and its error is logged by the `catch` block. -/
theorem chat_relay_failure_500 (env : Env) (authorization : Option String)
    (token : String) (user : User) (body : ReqBody)
    (c : String) (v : Embedding) (docs : List GuideEntry) (r : String) (e : Err)
    (hauth : Authenticated env authorization token user)
    (hq : body.query.truthy = true)
    (hw : body.viaWhatsApp = .bool true)
    (henc : env.encryptData body.query = .ok c)
    (hemb : env.embed body.query = .ok v)
    (hsearch : env.vectorSearch v 3 = .ok docs)
    (hgen : env.generate (buildPrompt (buildContext docs) body.query) = .ok r)
    (hrelay : env.relay r "whatsapp:+1234567890"
      ("whatsapp:" ++ user.phoneNumber.toStr) = .error e) :
    postChat env authorization body =
      (⟨500, .error "Internal server error"⟩,
        [.verify token, .encrypt body.query, .embed body.query, .search v 3,
          .generate (buildPrompt (buildContext docs) body.query),
          .relay r "whatsapp:+1234567890" ("whatsapp:" ++ user.phoneNumber.toStr),
          .log "Chatbot error:" e]) := by
  rw [postChat_authenticated env authorization token user body hauth,
    chatHandler_generated env user body c v docs r hq henc hemb hsearch hgen]
  simp [hw, JsVal.truthy, hrelay, internalError]

theorem chat_relay_failure_500_witness :
    postChat sampleEnv (some "Bearer good") sampleBody =
      (⟨500, .error "Internal server error"⟩,
        [.verify "good", .encrypt (.str "hi"), .embed (.str "hi"), .search [1, 0] 3,
          .generate (buildPrompt (buildContext [⟨"A", [1, 0]⟩, ⟨"B", [0, 1]⟩]) (.str "hi")),
          .relay "Click the heart icon." "whatsapp:+1234567890" "whatsapp:+201000000000",
          .log "Chatbot error:" "twilio: 503"]) :=
  chat_relay_failure_500 sampleEnv (some "Bearer good") "good" ⟨.str "+201000000000"⟩
    sampleBody "9f2c" [1, 0] [⟨"A", [1, 0]⟩, ⟨"B", [0, 1]⟩] "Click the heart icon."
    "twilio: 503" (sample_authenticated sampleEnv rfl) (by decide) rfl rfl rfl rfl rfl rfl

/-- C3 fails as stated: in the sample environment the request is authenticated,
`viaWhatsApp` is `true`, the query is non-empty, encryption, embedding,
retrieval and generation succeed and the relay throws; the response is 500 with
the generic error body, not 200 with the generated text. -/
theorem chat_relay_failure_counterexample :
    Authenticated sampleEnv (some "Bearer good") "good" ⟨.str "+201000000000"⟩ ∧
      sampleBody.viaWhatsApp = .bool true ∧ sampleBody.query = .str "hi" ∧
      sampleEnv.encryptData (.str "hi") = .ok "9f2c" ∧
      sampleEnv.embed (.str "hi") = .ok [1, 0] ∧
      sampleEnv.vectorSearch [1, 0] 3 = .ok [⟨"A", [1, 0]⟩, ⟨"B", [0, 1]⟩] ∧
      sampleEnv.generate
        "Context: A\nB\n\nUser Query: hi\n\nProvide a concise and accurate response in the same language as the query."
        = .ok "Click the heart icon." ∧
      sampleEnv.relay "Click the heart icon." "whatsapp:+1234567890"
        "whatsapp:+201000000000" = .error "twilio: 503" ∧
      (postChat sampleEnv (some "Bearer good") sampleBody).1 =
        ⟨500, .error "Internal server error"⟩ ∧
      (postChat sampleEnv (some "Bearer good") sampleBody).1 ≠
        ⟨200, .response "Click the heart icon."⟩ :=
  ⟨⟨by decide, by decide, rfl⟩, rfl, rfl, rfl, rfl, rfl, rfl, rfl, by decide, by decide⟩

/-- Once encryption, embedding and retrieval have succeeded, the generation
provider is called exactly once, with the prompt built from the retrieved
documents and the query, whatever happens afterwards. -/
theorem chatHandler_generate_calls (env : Env) (user : User) (body : ReqBody)
    (c : String) (v : Embedding) (docs : List GuideEntry)
    (hq : body.query.truthy = true)
    (henc : env.encryptData body.query = .ok c)
    (hemb : env.embed body.query = .ok v)
    (hsearch : env.vectorSearch v 3 = .ok docs) :
    (chatHandler env user body).2.filter Call.isGenerate =
      [.generate (buildPrompt (buildContext docs) body.query)] := by
  cases hgen : env.generate (buildPrompt (buildContext docs) body.query) with
  | error e =>
    simp [chatHandler, getEmbedding, hq, henc, hemb, hsearch, hgen, caught, Call.isGenerate]
  | ok r =>
    rw [chatHandler_generated env user body c v docs r hq henc hemb hsearch hgen]
    by_cases hw : body.viaWhatsApp.truthy = true
    · simp only [hw, if_true]
      cases hr : env.relay r "whatsapp:+1234567890" ("whatsapp:" ++ user.phoneNumber.toStr) <;>
        simp [Call.isGenerate]
    · simp [hw, Call.isGenerate]

/-- C5: on an authenticated request with a non-empty query on which every
collaborator succeeds (encryption, embedding, retrieval, generation, and the
relay when it is requested), the response is 200 with body `{ response: r }`,
where `r` is the text the generation provider returns for the prompt
`"Context: " + context + "\n\nUser Query: " + query + "\n\nProvide a concise
and accurate response in the same language as the query."`; the provider is
called exactly once, with that prompt.  Here `context` is the contents of the
retrieved documents, in order, joined by single newlines, and `query` is the
request's query as it stands: the string itself, or the decimal, `true` or
`[object Object]` that JavaScript prints for a number, a boolean or an object. -/
theorem chat_success_200 (env : Env) (authorization : Option String)
    (token : String) (user : User) (body : ReqBody)
    (c : String) (v : Embedding) (docs : List GuideEntry) (r : String) (queryText : String)
    (hauth : Authenticated env authorization token user)
    (hq : body.query.truthy = true)
    (htext : body.query = .str queryText ∨
      (∃ n h, body.query = .num n h ∧ queryText = toString n) ∨
      (body.query = .bool true ∧ queryText = "true") ∨
      (body.query = .obj ∧ queryText = "[object Object]"))
    (henc : env.encryptData body.query = .ok c)
    (hemb : env.embed body.query = .ok v)
    (hsearch : env.vectorSearch v 3 = .ok docs)
    (hgen : env.generate ("Context: " ++
      String.intercalate "\n" (docs.map (fun doc => doc.content)) ++
      "\n\nUser Query: " ++ queryText ++
      "\n\nProvide a concise and accurate response in the same language as the query.")
      = .ok r)
    (hrelay : body.viaWhatsApp.truthy = true →
      env.relay r "whatsapp:+1234567890" ("whatsapp:" ++ user.phoneNumber.toStr) = .ok ()) :
    (postChat env authorization body).1 = ⟨200, .response r⟩ ∧
      (postChat env authorization body).2.filter Call.isGenerate =
        [.generate ("Context: " ++
          String.intercalate "\n" (docs.map (fun doc => doc.content)) ++
          "\n\nUser Query: " ++ queryText ++
          "\n\nProvide a concise and accurate response in the same language as the query.")] := by
  have htxt : body.query.toStr = queryText := by
    rcases htext with h | ⟨n, hn, h, h2⟩ | ⟨h, h2⟩ | ⟨h, h2⟩
    · rw [h]; rfl
    · rw [h, h2]; rfl
    · rw [h, h2]; rfl
    · rw [h, h2]; rfl
  have hprompt : buildPrompt (buildContext docs) body.query =
      "Context: " ++ String.intercalate "\n" (docs.map (fun doc => doc.content)) ++
        "\n\nUser Query: " ++ queryText ++
        "\n\nProvide a concise and accurate response in the same language as the query." := by
    rw [buildPrompt, buildContext, jsJoin_eq_intercalate, htxt]
  have hgen2 : env.generate (buildPrompt (buildContext docs) body.query) = .ok r := by
    rw [hprompt]; exact hgen
  rw [postChat_authenticated env authorization token user body hauth]
  refine ⟨?_, ?_⟩
  · rw [chatHandler_generated env user body c v docs r hq henc hemb hsearch hgen2]
    by_cases hw : body.viaWhatsApp.truthy = true
    · simp [hw, hrelay hw]
    · simp [hw]
  · have h := chatHandler_generate_calls env user body c v docs hq henc hemb hsearch
    rw [hprompt] at h
    simpa [List.filter_cons, Call.isGenerate] using h

theorem chat_success_200_witness :
    (postChat relayOkEnv (some "Bearer good") sampleBody).1 =
        ⟨200, .response "Click the heart icon."⟩ ∧
      (postChat relayOkEnv (some "Bearer good") sampleBody).2.filter Call.isGenerate =
        [.generate ("Context: " ++ String.intercalate "\n"
            ([(⟨"A", [1, 0]⟩ : GuideEntry), ⟨"B", [0, 1]⟩].map (fun doc => doc.content)) ++
          "\n\nUser Query: " ++ "hi" ++
          "\n\nProvide a concise and accurate response in the same language as the query.")] :=
  chat_success_200 relayOkEnv (some "Bearer good") "good" ⟨.str "+201000000000"⟩
    sampleBody "9f2c" [1, 0] [⟨"A", [1, 0]⟩, ⟨"B", [0, 1]⟩] "Click the heart icon." "hi"
    (sample_authenticated relayOkEnv rfl) (by decide) (Or.inl rfl) rfl rfl rfl rfl
    (fun _ => rfl)

/-- C6: whatever sequence of documents the retrieval returns, the generation
provider is called once and the context inside its prompt is the documents'
`content` fields, in the order returned, joined by a single newline placed
between consecutive contents only (`String.intercalate`); when no document is
returned the context is the empty string, the provider is still called with
the empty-context prompt, and the request succeeds with its answer. -/
theorem chat_context_assembly (env : Env) (authorization : Option String)
    (token : String) (user : User) (body : ReqBody)
    (c : String) (v : Embedding) (docs : List GuideEntry)
    (hauth : Authenticated env authorization token user)
    (hq : body.query.truthy = true)
    (henc : env.encryptData body.query = .ok c)
    (hemb : env.embed body.query = .ok v)
    (hsearch : env.vectorSearch v 3 = .ok docs) :
    (postChat env authorization body).2.filter Call.isGenerate =
        [.generate ("Context: " ++
          String.intercalate "\n" (docs.map (fun doc => doc.content)) ++
          "\n\nUser Query: " ++ body.query.toStr ++
          "\n\nProvide a concise and accurate response in the same language as the query.")] ∧
      (docs = [] →
        (postChat env authorization body).2.filter Call.isGenerate =
          [.generate ("Context: " ++ "" ++ "\n\nUser Query: " ++ body.query.toStr ++
            "\n\nProvide a concise and accurate response in the same language as the query.")] ∧
        ∀ r, env.generate ("Context: " ++ "" ++ "\n\nUser Query: " ++ body.query.toStr ++
            "\n\nProvide a concise and accurate response in the same language as the query.")
            = .ok r →
          (body.viaWhatsApp.truthy = true →
            env.relay r "whatsapp:+1234567890"
              ("whatsapp:" ++ user.phoneNumber.toStr) = .ok ()) →
          (postChat env authorization body).1 = ⟨200, .response r⟩) := by
  have hcalls : (postChat env authorization body).2.filter Call.isGenerate =
      [.generate (buildPrompt (buildContext docs) body.query)] := by
    rw [postChat_authenticated env authorization token user body hauth]
    have h := chatHandler_generate_calls env user body c v docs hq henc hemb hsearch
    simpa [List.filter_cons, Call.isGenerate] using h
  refine ⟨?_, ?_⟩
  · rw [hcalls, buildPrompt, buildContext, jsJoin_eq_intercalate]
  · intro hdocs
    subst hdocs
    refine ⟨?_, ?_⟩
    · rw [hcalls]
      rfl
    · intro r hgen hrelay
      have hgen2 : env.generate (buildPrompt (buildContext []) body.query) = .ok r := hgen
      rw [postChat_authenticated env authorization token user body hauth,
        chatHandler_generated env user body c v [] r hq henc hemb hsearch hgen2]
      by_cases hw : body.viaWhatsApp.truthy = true
      · simp [hw, hrelay hw]
      · simp [hw]

theorem chat_context_assembly_witness :
    (postChat emptyStoreEnv (some "Bearer good") sampleBody).1 =
      ⟨200, .response "Click the heart icon."⟩ :=
  (chat_context_assembly emptyStoreEnv (some "Bearer good") "good" ⟨.str "+201000000000"⟩
    sampleBody "9f2c" [1, 0] [] (sample_authenticated emptyStoreEnv rfl) (by decide)
    rfl rfl rfl).2 rfl |>.2 "Click the heart icon." rfl (fun _ => rfl)

/-- C9: on an authenticated request with a non-empty query on which encryption,
embedding, retrieval and generation succeed, the calls of the request are the
verification, encryption, embedding, retrieval and generation calls, followed
by one relay call when `viaWhatsApp` is truthy and by nothing otherwise; the
relay call comes after the generation call, its body is the generated text and
its destination is `"whatsapp:"` followed by the `phoneNumber` of the identity
returned by the verification of the token: the string itself, or what
JavaScript prints for a number, a boolean, `null`, an object or a missing
field.  Nothing of the request body enters the destination. -/
theorem chat_relay_dispatch (env : Env) (authorization : Option String)
    (token : String) (user : User) (body : ReqBody)
    (c : String) (v : Embedding) (docs : List GuideEntry) (r : String) (phone : String)
    (hauth : Authenticated env authorization token user)
    (hphone : user.phoneNumber = .str phone ∨
      (∃ n h, user.phoneNumber = .num n h ∧ phone = toString n) ∨
      (user.phoneNumber = .undefined ∧ phone = "undefined") ∨
      (user.phoneNumber = .null ∧ phone = "null") ∨
      (user.phoneNumber = .bool true ∧ phone = "true") ∨
      (user.phoneNumber = .bool false ∧ phone = "false") ∨
      (user.phoneNumber = .obj ∧ phone = "[object Object]"))
    (hq : body.query.truthy = true)
    (henc : env.encryptData body.query = .ok c)
    (hemb : env.embed body.query = .ok v)
    (hsearch : env.vectorSearch v 3 = .ok docs)
    (hgen : env.generate (buildPrompt (buildContext docs) body.query) = .ok r) :
    env.jwtVerify token = .ok user ∧
      (postChat env authorization body).2.filter Call.isRelay =
        (if body.viaWhatsApp.truthy then
          [.relay r "whatsapp:+1234567890" ("whatsapp:" ++ phone)]
        else []) ∧
      ∃ rest, (∀ x ∈ rest, x.isRelay = false) ∧
        (postChat env authorization body).2 =
          [.verify token, .encrypt body.query, .embed body.query, .search v 3,
            .generate (buildPrompt (buildContext docs) body.query)] ++
          (if body.viaWhatsApp.truthy then
            .relay r "whatsapp:+1234567890" ("whatsapp:" ++ phone) :: rest
          else []) := by
  have hph : user.phoneNumber.toStr = phone := by
    rcases hphone with h | ⟨n, hn, h, h2⟩ | ⟨h, h2⟩ | ⟨h, h2⟩ | ⟨h, h2⟩ | ⟨h, h2⟩ | ⟨h, h2⟩
    · rw [h]; rfl
    all_goals (rw [h, h2]; rfl)
  refine ⟨hauth.2.2, ?_⟩
  rw [postChat_authenticated env authorization token user body hauth,
    chatHandler_generated env user body c v docs r hq henc hemb hsearch hgen, hph]
  by_cases hw : body.viaWhatsApp.truthy = true
  · simp only [hw, if_true]
    cases hr : env.relay r "whatsapp:+1234567890" ("whatsapp:" ++ phone) with
    | error e =>
      refine ⟨by simp [Call.isRelay], [.log "Chatbot error:" e], by simp [Call.isRelay], ?_⟩
      simp
    | ok u =>
      refine ⟨by simp [Call.isRelay], [], by simp, ?_⟩
      simp
  · simp only [hw]
    refine ⟨by simp [Call.isRelay], [], by simp, ?_⟩
    simp

theorem chat_relay_dispatch_witness :
    (postChat relayOkEnv (some "Bearer good") sampleBody).2.filter Call.isRelay =
      [.relay "Click the heart icon." "whatsapp:+1234567890" "whatsapp:+201000000000"] :=
  (chat_relay_dispatch relayOkEnv (some "Bearer good") "good" ⟨.str "+201000000000"⟩
    sampleBody "9f2c" [1, 0] [⟨"A", [1, 0]⟩, ⟨"B", [0, 1]⟩] "Click the heart icon."
    "+201000000000" (sample_authenticated relayOkEnv rfl) (Or.inl rfl) (by decide)
    rfl rfl rfl rfl).2.1

/-! ## The guide store under upserts -/

theorem contents_findOneAndUpdate (store : Store) (c : String) (v : Embedding) :
    contents (findOneAndUpdate store c v) =
      if c ∈ contents store then contents store else contents store ++ [c] := by
  induction store with
  | nil => simp [findOneAndUpdate, contents]
  | cons d ds ih =>
    unfold contents at ih
    by_cases h : d.content = c
    · simp [findOneAndUpdate, contents, h]
    · have h2 : ¬ c = d.content := fun hc => h hc.symm
      by_cases hm : c ∈ List.map (fun d => d.content) ds
      · simp [findOneAndUpdate, contents, h, h2, hm, ih]
      · simp [findOneAndUpdate, contents, h, h2, hm, ih]

theorem entriesFor_findOneAndUpdate_ne (store : Store) (c p : String) (v : Embedding)
    (hne : p ≠ c) :
    entriesFor (findOneAndUpdate store c v) p = entriesFor store p := by
  induction store with
  | nil =>
    have h2 : ¬ c = p := fun hc => hne hc.symm
    simp [findOneAndUpdate, entriesFor, h2]
  | cons d ds ih =>
    unfold entriesFor at ih
    by_cases h : d.content = c
    · have h2 : ¬ c = p := fun hc => hne hc.symm
      have h3 : ¬ d.content = p := fun hc => hne (hc.symm.trans h)
      simp [findOneAndUpdate, entriesFor, h, h2, h3, List.filter_cons]
    · simp only [findOneAndUpdate, entriesFor, h, if_false, List.filter_cons]
      rw [ih]

theorem entriesFor_eq_nil (store : Store) (c : String) (h : c ∉ contents store) :
    entriesFor store c = [] := by
  unfold entriesFor
  rw [List.filter_eq_nil_iff]
  intro d hd hc
  apply h
  unfold contents
  exact List.mem_map.2 ⟨d, hd, by simpa using hc⟩

theorem entriesFor_findOneAndUpdate_self (store : Store) (c : String) (v : Embedding)
    (hnd : (contents store).Nodup) :
    entriesFor (findOneAndUpdate store c v) c = [⟨c, v⟩] := by
  induction store with
  | nil => simp [findOneAndUpdate, entriesFor]
  | cons d ds ih =>
    have hnd2 : d.content ∉ contents ds ∧ (contents ds).Nodup := by
      simpa [contents] using hnd
    by_cases h : d.content = c
    · have hnil := entriesFor_eq_nil ds c (h ▸ hnd2.1)
      unfold entriesFor at hnil
      simp [findOneAndUpdate, entriesFor, h, List.filter_cons, hnil]
    · have ih2 := ih hnd2.2
      unfold entriesFor at ih2
      simp [findOneAndUpdate, entriesFor, h, List.filter_cons, ih2]

theorem nodup_findOneAndUpdate (store : Store) (c : String) (v : Embedding)
    (hnd : (contents store).Nodup) : (contents (findOneAndUpdate store c v)).Nodup := by
  rw [contents_findOneAndUpdate]
  by_cases hm : c ∈ contents store
  · simpa [hm] using hnd
  · simp only [hm, if_false]
    exact List.nodup_append.2 ⟨hnd, List.nodup_singleton c, by simpa using hm⟩

theorem findOneAndUpdate_fixed (store : Store) (c : String) (v : Embedding)
    (h : entriesFor store c = [⟨c, v⟩]) : findOneAndUpdate store c v = store := by
  induction store with
  | nil => simp [entriesFor] at h
  | cons d ds ih =>
    by_cases hd : d.content = c
    · have h2 : d = ⟨c, v⟩ := by
        simp only [entriesFor, List.filter_cons, hd, decide_True, if_true] at h
        exact (List.cons.inj h).1
      simp [findOneAndUpdate, hd, h2]
    · have h2 : entriesFor ds c = [⟨c, v⟩] := by
        simpa [entriesFor, List.filter_cons, hd] using h
      simp [findOneAndUpdate, hd, ih h2]

theorem nodup_upsertAll (embed : JsVal → Except Err Embedding) (ps : List String)
    (store : Store) (hnd : (contents store).Nodup) :
    (contents (upsertAll embed ps store)).Nodup := by
  induction ps generalizing store with
  | nil => simpa [upsertAll] using hnd
  | cons c cs ih =>
    rw [upsertAll]
    exact ih _ (nodup_findOneAndUpdate store c _ hnd)

theorem entriesFor_upsertAll_notin (embed : JsVal → Except Err Embedding)
    (ps : List String) (store : Store) (p : String) (hp : p ∉ ps) :
    entriesFor (upsertAll embed ps store) p = entriesFor store p := by
  induction ps generalizing store with
  | nil => rfl
  | cons c cs ih =>
    have h1 : p ≠ c := fun h => hp (h ▸ List.mem_cons_self _ _)
    have h2 : p ∉ cs := fun h => hp (List.mem_cons_of_mem _ h)
    rw [upsertAll, ih _ h2, entriesFor_findOneAndUpdate_ne store c p _ h1]

theorem entriesFor_upsertAll_mem (embed : JsVal → Except Err Embedding)
    (ps : List String) (store : Store) (p : String)
    (hnd : (contents store).Nodup) (hps : ps.Nodup) (hp : p ∈ ps) :
    entriesFor (upsertAll embed ps store) p = [⟨p, embeddingOf embed p⟩] := by
  induction ps generalizing store with
  | nil => simp at hp
  | cons c cs ih =>
    have hps2 : c ∉ cs ∧ cs.Nodup := List.nodup_cons.1 hps
    rw [upsertAll]
    rcases List.mem_cons.1 hp with h | h
    · subst h
      rw [entriesFor_upsertAll_notin embed cs _ p hps2.1]
      exact entriesFor_findOneAndUpdate_self store p _ hnd
    · exact ih _ (nodup_findOneAndUpdate store c _ hnd) hps2.2 h

theorem contents_upsertAll_present (embed : JsVal → Except Err Embedding)
    (ps : List String) (store : Store) (h : ∀ p ∈ ps, p ∈ contents store) :
    contents (upsertAll embed ps store) = contents store := by
  induction ps generalizing store with
  | nil => rfl
  | cons c cs ih =>
    have hc : c ∈ contents store := h c (List.mem_cons_self _ _)
    have hstep : contents (findOneAndUpdate store c (embeddingOf embed c)) = contents store := by
      rw [contents_findOneAndUpdate]
      simp [hc]
    rw [upsertAll, ih, hstep]
    intro p hp
    rw [hstep]
    exact h p (List.mem_cons_of_mem _ hp)

theorem contents_upsertAll_fresh (embed : JsVal → Except Err Embedding)
    (ps : List String) (store : Store) (h : (contents store ++ ps).Nodup) :
    contents (upsertAll embed ps store) = contents store ++ ps := by
  induction ps generalizing store with
  | nil => simp [upsertAll]
  | cons c cs ih =>
    have hc : c ∉ contents store := by
      intro hc
      have := (List.nodup_append.1 h).2.2
      exact this hc (List.mem_cons_self _ _)
    have hstep : contents (findOneAndUpdate store c (embeddingOf embed c)) =
        contents store ++ [c] := by
      rw [contents_findOneAndUpdate]
      simp [hc]
    rw [upsertAll, ih, hstep]
    · simp
    · rw [hstep]
      simpa using h

theorem upsertAll_fixed (embed : JsVal → Except Err Embedding) (ps : List String)
    (store : Store) (h : ∀ p ∈ ps, entriesFor store p = [⟨p, embeddingOf embed p⟩]) :
    upsertAll embed ps store = store := by
  induction ps with
  | nil => rfl
  | cons c cs ih =>
    rw [upsertAll, findOneAndUpdate_fixed store c _ (h c (List.mem_cons_self _ _))]
    exact ih (fun p hp => h p (List.mem_cons_of_mem _ hp))

theorem upsertAll_congr (embed1 embed2 : JsVal → Except Err Embedding) (ps : List String)
    (store : Store) (h : ∀ p ∈ ps, embed2 (.str p) = embed1 (.str p)) :
    upsertAll embed2 ps store = upsertAll embed1 ps store := by
  induction ps generalizing store with
  | nil => rfl
  | cons c cs ih =>
    have hc : embeddingOf embed2 c = embeddingOf embed1 c := by
      simp [embeddingOf, h c (List.mem_cons_self _ _)]
    rw [upsertAll, upsertAll, hc]
    exact ih _ (fun p hp => h p (List.mem_cons_of_mem _ hp))

/-! ## The loader -/

theorem loadLoop_ok (embed : JsVal → Except Err Embedding) (ps : List String)
    (store : Store) (h : ∀ p ∈ ps, ∃ v, embed (.str p) = .ok v) :
    loadLoop embed ps store = ⟨.ok (), upsertAll embed ps store, loadTrace embed ps⟩ := by
  induction ps generalizing store with
  | nil => rfl
  | cons c cs ih =>
    obtain ⟨v, hv⟩ := h c (List.mem_cons_self _ _)
    have hval : embeddingOf embed c = v := by simp [embeddingOf, hv]
    simp [loadLoop, getEmbedding, hv, upsertAll, loadTrace, hval,
      ih _ (fun p hp => h p (List.mem_cons_of_mem _ hp))]

theorem loadLoop_fail (embed : JsVal → Except Err Embedding) (pre post : List String)
    (p : String) (store : Store) (e : Err)
    (hpre : ∀ q ∈ pre, ∃ v, embed (.str q) = .ok v) (hp : embed (.str p) = .error e) :
    loadLoop embed (pre ++ p :: post) store =
      ⟨.error e, upsertAll embed pre store,
        loadTrace embed pre ++ [.embed (.str p), .log "Error generating embedding:" e]⟩ := by
  induction pre generalizing store with
  | nil => simp [loadLoop, getEmbedding, hp, upsertAll, loadTrace]
  | cons c cs ih =>
    obtain ⟨v, hv⟩ := hpre c (List.mem_cons_self _ _)
    have hval : embeddingOf embed c = v := by simp [embeddingOf, hv]
    simp [loadLoop, getEmbedding, hv, upsertAll, loadTrace, hval,
      ih _ (fun q hq => hpre q (List.mem_cons_of_mem _ hq))]

theorem mem_loadTrace (embed : JsVal → Except Err Embedding) (ps : List String) (x : Call)
    (hx : x ∈ loadTrace embed ps) :
    ∃ q ∈ ps, x = .embed (.str q) ∨ x = .upsert q (embeddingOf embed q) := by
  induction ps with
  | nil => simp [loadTrace] at hx
  | cons c cs ih =>
    simp only [loadTrace, List.mem_cons] at hx
    rcases hx with h | h | h
    · exact ⟨c, List.mem_cons_self _ _, Or.inl h⟩
    · exact ⟨c, List.mem_cons_self _ _, Or.inr h⟩
    · obtain ⟨q, hq, hx2⟩ := ih h
      exact ⟨q, List.mem_cons_of_mem _ hq, hx2⟩

theorem guideContent_nodup : guideContent.Nodup := by decide

/-- C7: starting from a store in which no two entries share a content (the
empty store in particular), with an embedding provider that succeeds on every
passage in both runs, running `loadCustomerGuide` and then running it again
succeeds both times and leaves, for every passage of the static list, exactly
one entry with that content, holding the vector computed for it in the second
run; entries with other contents are untouched; from the empty store the
result has exactly the six passages as contents; and when the provider returns
in the second run what it returned in the first, the second run leaves the
store equal to the store after the first run. -/
theorem load_twice_one_entry_per_passage (embed1 embed2 : JsVal → Except Err Embedding)
    (store : Store)
    (hnd : (store.map (fun d => d.content)).Nodup)
    (h1 : ∀ p ∈ guideContent, ∃ v, embed1 (.str p) = .ok v)
    (h2 : ∀ p ∈ guideContent, ∃ v, embed2 (.str p) = .ok v) :
    (loadCustomerGuide embed1 store).outcome = .ok () ∧
      (loadCustomerGuide embed2 (loadCustomerGuide embed1 store).store).outcome = .ok () ∧
      (∀ p ∈ guideContent, ∃ v, embed2 (.str p) = .ok v ∧
        (loadCustomerGuide embed2 (loadCustomerGuide embed1 store).store).store.filter
          (fun d => decide (d.content = p)) = [⟨p, v⟩]) ∧
      (∀ p, p ∉ guideContent →
        (loadCustomerGuide embed2 (loadCustomerGuide embed1 store).store).store.filter
          (fun d => decide (d.content = p)) = store.filter (fun d => decide (d.content = p))) ∧
      (store = [] →
        (loadCustomerGuide embed2 (loadCustomerGuide embed1 store).store).store.map
          (fun d => d.content) = guideContent ∧
        (loadCustomerGuide embed2 (loadCustomerGuide embed1 store).store).store.length = 6) ∧
      ((∀ p ∈ guideContent, embed2 (.str p) = embed1 (.str p)) →
        (loadCustomerGuide embed2 (loadCustomerGuide embed1 store).store).store =
          (loadCustomerGuide embed1 store).store) := by
  have hnd0 : (contents store).Nodup := hnd
  have hnd1 : (contents (upsertAll embed1 guideContent store)).Nodup :=
    nodup_upsertAll embed1 guideContent store hnd0
  simp only [loadCustomerGuide, loadLoop_ok embed1 guideContent store h1,
    loadLoop_ok embed2 guideContent _ h2]
  refine ⟨trivial, trivial, ?_, ?_, ?_, ?_⟩
  · intro p hp
    obtain ⟨v, hv⟩ := h2 p hp
    refine ⟨v, hv, ?_⟩
    have h := entriesFor_upsertAll_mem embed2 guideContent _ p hnd1 guideContent_nodup hp
    have hval : embeddingOf embed2 p = v := by simp [embeddingOf, hv]
    rw [hval] at h
    exact h
  · intro p hp
    have ha := entriesFor_upsertAll_notin embed2 guideContent
      (upsertAll embed1 guideContent store) p hp
    have hb := entriesFor_upsertAll_notin embed1 guideContent store p hp
    exact ha.trans hb
  · intro hs
    subst hs
    have hc1 : contents (upsertAll embed1 guideContent []) = guideContent := by
      rw [contents_upsertAll_fresh embed1 guideContent [] (by simpa [contents] using
        guideContent_nodup)]
      simp [contents]
    have hc2 : contents (upsertAll embed2 guideContent (upsertAll embed1 guideContent []))
        = guideContent := by
      rw [contents_upsertAll_present embed2 guideContent _ (by rw [hc1]; exact fun p hp => hp),
        hc1]
    refine ⟨hc2, ?_⟩
    have hl := congrArg List.length hc2
    simpa [contents, guideContent] using hl
  · intro hdet
    rw [upsertAll_congr embed1 embed2 guideContent _ hdet]
    apply upsertAll_fixed
    intro p hp
    exact entriesFor_upsertAll_mem embed1 guideContent store p hnd0 guideContent_nodup hp

theorem load_twice_one_entry_per_passage_witness :
    (loadCustomerGuide constEmbed (loadCustomerGuide constEmbed []).store).store.map
        (fun d => d.content) = guideContent ∧
      (loadCustomerGuide constEmbed (loadCustomerGuide constEmbed []).store).store.length = 6 :=
  (load_twice_one_entry_per_passage constEmbed constEmbed [] (by simp)
    (fun _ _ => ⟨[1, 0], rfl⟩) (fun _ _ => ⟨[1, 0], rfl⟩)).2.2.2.2.1 rfl

/-- C8 (as the code behaves): when the embedding call throws for a passage of
the static list while it succeeded for every passage before it, the run of
`loadCustomerGuide` stops there: it rejects with that error; the passages
before the failing one have been embedded and upserted, in order; the failing
passage is not upserted; no passage after it is embedded or upserted; and the
one error is logged by `getEmbedding` and once more by the start-up `catch`. -/
theorem load_stops_at_first_failure (embed : JsVal → Except Err Embedding) (store : Store)
    (pre post : List String) (p : String) (e : Err)
    (hsplit : guideContent = pre ++ p :: post)
    (hpre : ∀ q ∈ pre, ∃ v, embed (.str q) = .ok v)
    (hp : embed (.str p) = .error e) :
    (loadCustomerGuide embed store).outcome = .error e ∧
      (loadCustomerGuide embed store).store = upsertAll embed pre store ∧
      (loadCustomerGuide embed store).trace =
        loadTrace embed pre ++ [.embed (.str p), .log "Error generating embedding:" e] ∧
      (∀ q ∈ post, Call.embed (.str q) ∉ (loadCustomerGuide embed store).trace ∧
        ∀ v, Call.upsert q v ∉ (loadCustomerGuide embed store).trace) ∧
      (∀ v, Call.upsert p v ∉ (loadCustomerGuide embed store).trace) ∧
      initGuide embed store =
        (upsertAll embed pre store,
          loadTrace embed pre ++ [.embed (.str p), .log "Error generating embedding:" e,
            .log "" e]) := by
  have hload : loadCustomerGuide embed store =
      ⟨.error e, upsertAll embed pre store,
        loadTrace embed pre ++ [.embed (.str p), .log "Error generating embedding:" e]⟩ := by
    rw [loadCustomerGuide, hsplit]
    exact loadLoop_fail embed pre post p store e hpre hp
  have hnd : (pre ++ p :: post).Nodup := hsplit ▸ guideContent_nodup
  have hnd2 := List.nodup_append.1 hnd
  have hp_pre : p ∉ pre := fun h => hnd2.2.2 h (List.mem_cons_self _ _)
  have hpost_pre : ∀ q ∈ post, q ∉ pre := fun q hq h =>
    hnd2.2.2 h (List.mem_cons_of_mem _ hq)
  have hpost_p : ∀ q ∈ post, q ≠ p := fun q hq h =>
    (List.nodup_cons.1 hnd2.2.1).1 (h ▸ hq)
  refine ⟨by rw [hload], by rw [hload], by rw [hload], ?_, ?_, ?_⟩
  · intro q hq
    rw [hload]
    refine ⟨?_, ?_⟩
    · intro hx
      rcases List.mem_append.1 hx with hx | hx
      · obtain ⟨q2, hq2, h | h⟩ := mem_loadTrace embed pre _ hx
        · have : q = q2 := by simpa using h
          exact hpost_pre q hq (this ▸ hq2)
        · simp at h
      · have : q = p := by simpa using hx
        exact hpost_p q hq this
    · intro v hx
      rcases List.mem_append.1 hx with hx | hx
      · obtain ⟨q2, hq2, h | h⟩ := mem_loadTrace embed pre _ hx
        · simp at h
        · have : q = q2 := by
            have h3 := h
            simp only [Call.upsert.injEq] at h3
            exact h3.1
          exact hpost_pre q hq (this ▸ hq2)
      · simp at hx
  · intro v hx
    rw [hload] at hx
    rcases List.mem_append.1 hx with hx | hx
    · obtain ⟨q2, hq2, h | h⟩ := mem_loadTrace embed pre _ hx
      · simp at h
      · have : p = q2 := by
          have h3 := h
          simp only [Call.upsert.injEq] at h3
          exact h3.1
        exact hp_pre (this ▸ hq2)
    · simp at hx
  · simp [initGuide, hload]

theorem load_stops_at_first_failure_witness :
    (loadCustomerGuide failFirstEmbed []).outcome = .error "hf: 503" ∧
      (loadCustomerGuide failFirstEmbed []).store = [] :=
  have h := load_stops_at_first_failure failFirstEmbed [] []
    [ "To visit a store, select the store from the list and click \"Visit\".",
      "To navigate, use the search bar at the top or browse categories.",
      "لإضافة منتج إلى قائمة الرغبات، اضغط على أيقونة القلب بجوار المنتج.",
      "لزيارة متجر، اختر المتجر من القائمة واضغط على \"زيارة\".",
      "للتصفح، استخدم شريط البحث في الأعلى أو تصفح الفئات." ]
    "To add a product to your wishlist, click the heart icon next to the product."
    "hf: 503" rfl (fun _ hq => absurd hq (List.not_mem_nil _)) rfl
  ⟨h.1, h.2.1⟩

/-- C8 fails as stated: with an embedding provider that throws on the first
passage only, the second passage (on which the provider would succeed) is
never embedded nor upserted; the run leaves the empty store empty and the only
calls are the failed embedding call and the two log entries of its error. -/
theorem load_failure_aborts_counterexample :
    failFirstEmbed
        (.str "To add a product to your wishlist, click the heart icon next to the product.")
        = .error "hf: 503" ∧
      "To visit a store, select the store from the list and click \"Visit\"." ∈ guideContent ∧
      failFirstEmbed
        (.str "To visit a store, select the store from the list and click \"Visit\".")
        = .ok [1, 0] ∧
      Call.embed
        (.str "To visit a store, select the store from the list and click \"Visit\".")
        ∉ (loadCustomerGuide failFirstEmbed []).trace ∧
      (loadCustomerGuide failFirstEmbed []).store = [] ∧
      initGuide failFirstEmbed [] =
        ([],
          [.embed
            (.str "To add a product to your wishlist, click the heart icon next to the product."),
            .log "Error generating embedding:" "hf: 503", .log "" "hf: 503"]) :=
  ⟨rfl, by decide, rfl, by decide, by decide, by decide⟩

end Chatbot
